import Mathlib

/-!
Verification of the session/attention state machine and mental-state
classification pipeline of the treehacks26-jetson repository.

The Python sources are shallowly embedded:
* `src/time_tracker/session.py` — `SessionTracker`, `SessionEvent`,
  `ActiveSession` and `SessionTracker.update`;
* `src/eeg/integration.py` — `_metrics_to_state`, the metric buffer of
  `EEGBridge` (`store_metrics`, `get_last_metrics`) and the buffer scan of
  `handle_session_event`;
* `src/processor_main.py` — the intervention gate `on_mental_state` and the
  `ms_hint` derivation of `handle_reading_help`.

Wall-clock time is modelled by an explicit rational `now` argument passed to
each call (simulated time); Python floats become `ℚ`.  Python dictionaries
that callers may mutate are modelled with an explicit heap (a list of
dictionaries indexed by address) so that copy-vs-alias behaviour is visible.
-/

namespace Jetson

/-- Event kinds of `SessionEventType` in `src/time_tracker/session.py`. -/
inductive SessionEventType where
  | contextChanged
  | warnThreshold
  | longThreshold
  | followUp
  deriving DecidableEq, Repr

/-- Embedding of `SessionEvent`: the emitted event record.  The `timestamp`
field is the simulated time at which the event was emitted. -/
structure SessionEvent where
  eventType : SessionEventType
  contextId : String
  durationSeconds : ℚ
  timestamp : ℚ
  deriving DecidableEq, Repr

/-- Embedding of `ActiveSession`.  Only the context's `context_id` matters to
the tracker, so the context is kept as its id. -/
structure ActiveSession where
  contextId : String
  startedAt : ℚ
  lastActivityAt : ℚ
  deriving DecidableEq, Repr

/-- Embedding of the `SessionTracker` object: configuration fields from
`__init__` together with the mutable state. -/
structure SessionTracker where
  warnThreshold : ℚ
  longThreshold : ℚ
  followUpInterval : ℚ
  currentSession : Option ActiveSession
  warnEmitted : Bool
  longEmitted : Bool
  lastFollowUpAt : ℚ
  deriving DecidableEq, Repr

/-- A freshly constructed `SessionTracker(warn, long, follow_up)`. -/
def SessionTracker.init (warn long interval : ℚ) : SessionTracker :=
  { warnThreshold := warn
    longThreshold := long
    followUpInterval := interval
    currentSession := none
    warnEmitted := false
    longEmitted := false
    lastFollowUpAt := 0 }

/-- The context-changed branch of `SessionTracker.update` (session.py lines
83–97): open a new session, reset the fired flags and `_last_follow_up_at`,
and emit `CONTEXT_CHANGED` with duration 0. -/
def SessionTracker.newSession (s : SessionTracker) (now : ℚ) (cid : String) :
    SessionTracker × List SessionEvent × Option ActiveSession :=
  let sess : ActiveSession := { contextId := cid, startedAt := now, lastActivityAt := now }
  ({ s with
      currentSession := some sess
      warnEmitted := false
      longEmitted := false
      lastFollowUpAt := 0 },
   [{ eventType := .contextChanged, contextId := cid, durationSeconds := 0, timestamp := now }],
   some sess)

/-- Embedding of `SessionTracker.update` (session.py lines 71–126).  Returns
the updated tracker, the list of events emitted during the call (always of
length 0 or 1) and the Python return value.  `duration_seconds` reads the
clock again right after `now`; under simulated time both reads are `now`. -/
def SessionTracker.update (s : SessionTracker) (now : ℚ) (ctx : Option String) :
    SessionTracker × List SessionEvent × Option ActiveSession :=
  match ctx with
  | none => (s, [], s.currentSession)
  | some cid =>
    match s.currentSession with
    | none => s.newSession now cid
    | some cur =>
      if cur.contextId ≠ cid then
        s.newSession now cid
      else
        let cur' : ActiveSession := { cur with lastActivityAt := now }
        let duration : ℚ := now - cur'.startedAt
        if s.longThreshold ≤ duration ∧ s.longEmitted = false then
          ({ s with currentSession := some cur', longEmitted := true, lastFollowUpAt := now },
           [{ eventType := .longThreshold, contextId := cid,
              durationSeconds := duration, timestamp := now }],
           some cur')
        else if s.longThreshold ≤ duration ∧ s.followUpInterval ≤ now - s.lastFollowUpAt then
          ({ s with currentSession := some cur', lastFollowUpAt := now },
           [{ eventType := .followUp, contextId := cid,
              durationSeconds := duration, timestamp := now }],
           some cur')
        else if s.warnThreshold ≤ duration ∧ s.warnEmitted = false then
          ({ s with currentSession := some cur', warnEmitted := true },
           [{ eventType := .warnThreshold, contextId := cid,
              durationSeconds := duration, timestamp := now }],
           some cur')
        else
          ({ s with currentSession := some cur' }, [], some cur')

/-- Run a sequence of `update` calls, each given as a `(now, context)` pair,
collecting all emitted events in order. -/
def runTrace (s : SessionTracker) : List (ℚ × Option String) → SessionTracker × List SessionEvent
  | [] => (s, [])
  | (t, c) :: rest =>
    ((runTrace (s.update t c).1 rest).1,
     (s.update t c).2.1 ++ (runTrace (s.update t c).1 rest).2)

/-- Number of `WARN_THRESHOLD` events in a list. -/
def countWarn (evs : List SessionEvent) : ℕ :=
  evs.countP fun e => decide (e.eventType = .warnThreshold)

/-- Number of `LONG_THRESHOLD` events in a list. -/
def countLong (evs : List SessionEvent) : ℕ :=
  evs.countP fun e => decide (e.eventType = .longThreshold)

/-- Number of `CONTEXT_CHANGED` events in a list. -/
def countCC (evs : List SessionEvent) : ℕ :=
  evs.countP fun e => decide (e.eventType = .contextChanged)

/-- Number of `FOLLOW_UP` events in a list. -/
def countFu (evs : List SessionEvent) : ℕ :=
  evs.countP fun e => decide (e.eventType = .followUp)

/-- Timestamps of the `LONG_THRESHOLD` and `FOLLOW_UP` events of a list, in
emission order. -/
def longFuStamps (evs : List SessionEvent) : List ℚ :=
  (evs.filter fun e =>
    decide (e.eventType = .longThreshold ∨ e.eventType = .followUp)).map (·.timestamp)

/-- Consecutive entries of `l` are at least `interval` apart. -/
def sepChain (interval : ℚ) (l : List ℚ) : Prop :=
  l.Chain' fun a b => interval ≤ b - a

/-- Once `LONG_THRESHOLD` has fired, `_last_follow_up_at` remembers the
timestamp of the last long/follow-up emission; before that it carries no
information for the separation argument. -/
def ghostStamp (s : SessionTracker) : List ℚ :=
  if s.longEmitted then [s.lastFollowUpAt] else []

/-- The `FOLLOW_UP` events that occur strictly before the first
`LONG_THRESHOLD` event of the list. -/
def fuBeforeLong (evs : List SessionEvent) : ℕ :=
  countFu (evs.takeWhile fun e => decide (e.eventType ≠ .longThreshold))

/-- There is a `WARN_THRESHOLD` event at or after the first `LONG_THRESHOLD`
event of the list (as `WARN ≠ LONG`, this means strictly after it). -/
def warnAfterLong (evs : List SessionEvent) : Bool :=
  (evs.dropWhile fun e => decide (e.eventType ≠ .longThreshold)).any
    fun e => decide (e.eventType = .warnThreshold)

/-- There is a `WARN_THRESHOLD` event before the first `LONG_THRESHOLD`
event of the list. -/
def warnBeforeLong (evs : List SessionEvent) : Bool :=
  (evs.takeWhile fun e => decide (e.eventType ≠ .longThreshold)).any
    fun e => decide (e.eventType = .warnThreshold)

/-- Invariant tying a same-context run `r = runTrace s …` to its start state
`s`: the session stays on `cid`, the configuration is unchanged, the fired
flags absorb exactly the emitted `WARN`/`LONG` events, no `CONTEXT_CHANGED`
is emitted, the long/follow-up timestamps are separated by the follow-up
interval (with `_last_follow_up_at` as the anchor), and no `FOLLOW_UP`
precedes the first `LONG_THRESHOLD`. -/
def RunOK (cid : String) (s : SessionTracker) (r : SessionTracker × List SessionEvent) : Prop :=
  (∃ cur2 : ActiveSession, r.1.currentSession = some cur2 ∧ cur2.contextId = cid) ∧
  r.1.followUpInterval = s.followUpInterval ∧
  countWarn r.2 + s.warnEmitted.toNat = r.1.warnEmitted.toNat ∧
  countLong r.2 + s.longEmitted.toNat = r.1.longEmitted.toNat ∧
  countCC r.2 = 0 ∧
  sepChain s.followUpInterval (ghostStamp s ++ longFuStamps r.2) ∧
  ghostStamp r.1 = ((ghostStamp s ++ longFuStamps r.2).getLast?).toList ∧
  (s.longEmitted = false → fuBeforeLong r.2 = 0)

lemma runTrace_fixedCtx (cid : String) (ts : List ℚ) :
    ∀ (s : SessionTracker) (cur : ActiveSession),
      s.currentSession = some cur → cur.contextId = cid →
      RunOK cid s (runTrace s (ts.map fun t => (t, some cid))) := by
  induction ts with
  | nil =>
    intro s cur h hc
    refine ⟨⟨cur, h, hc⟩, rfl, by simp [runTrace, countWarn], by simp [runTrace, countLong],
      by simp [runTrace, countCC], ?_, ?_, fun _ => by simp [runTrace, fuBeforeLong, countFu]⟩
    · cases hb : s.longEmitted <;>
        simp [runTrace, longFuStamps, ghostStamp, hb, sepChain]
    · cases hb : s.longEmitted <;>
        simp [runTrace, longFuStamps, ghostStamp, hb]
  | cons t rest ih =>
    intro s cur h hc
    by_cases h1 : s.longThreshold ≤ t - cur.startedAt ∧ s.longEmitted = false
    · -- LONG_THRESHOLD branch
      have hu : s.update t (some cid) =
          ({ s with currentSession := some { cur with lastActivityAt := t },
                    longEmitted := true, lastFollowUpAt := t },
           [{ eventType := .longThreshold, contextId := cid,
              durationSeconds := t - cur.startedAt, timestamp := t }],
           some { cur with lastActivityAt := t }) := by
        simp [SessionTracker.update, h, hc, h1]
      obtain ⟨hcur2, hfi, hw, hl, hcc, hchain, hghost, -⟩ :=
        ih { s with currentSession := some { cur with lastActivityAt := t },
                    longEmitted := true, lastFollowUpAt := t }
           { cur with lastActivityAt := t } rfl hc
      refine ⟨?_, ?_, ?_, ?_, ?_, ?_, ?_, ?_⟩ <;>
        simp only [List.map_cons, runTrace, hu, List.singleton_append]
      · exact hcur2
      · exact hfi
      · simpa [countWarn, List.countP_cons] using hw
      · simp [countLong, List.countP_cons, h1.2] at hl ⊢
        omega
      · simpa [countCC, List.countP_cons] using hcc
      · simpa [ghostStamp, h1.2, longFuStamps, sepChain] using hchain
      · simpa [ghostStamp, h1.2, longFuStamps] using hghost
      · intro _
        simp [fuBeforeLong, List.takeWhile_cons, countFu]
    · by_cases h2 : s.longThreshold ≤ t - cur.startedAt ∧
          s.followUpInterval ≤ t - s.lastFollowUpAt
      · -- FOLLOW_UP branch
        have hlE : s.longEmitted = true := by
          cases hb : s.longEmitted
          · exact absurd ⟨h2.1, hb⟩ h1
          · rfl
        have hu : s.update t (some cid) =
            ({ s with currentSession := some { cur with lastActivityAt := t },
                      lastFollowUpAt := t },
             [{ eventType := .followUp, contextId := cid,
                durationSeconds := t - cur.startedAt, timestamp := t }],
             some { cur with lastActivityAt := t }) := by
          simp [SessionTracker.update, h, hc, h1, h2, hlE]
        obtain ⟨hcur2, hfi, hw, hl, hcc, hchain, hghost, -⟩ :=
          ih { s with currentSession := some { cur with lastActivityAt := t },
                      lastFollowUpAt := t }
             { cur with lastActivityAt := t } rfl hc
        refine ⟨?_, ?_, ?_, ?_, ?_, ?_, ?_, ?_⟩ <;>
          simp only [List.map_cons, runTrace, hu, List.singleton_append]
        · exact hcur2
        · exact hfi
        · simpa [countWarn, List.countP_cons] using hw
        · simpa [countLong, List.countP_cons, hlE] using hl
        · simpa [countCC, List.countP_cons] using hcc
        · simp [sepChain, ghostStamp, hlE, longFuStamps] at hchain ⊢
          exact ⟨h2.2, hchain⟩
        · simp [ghostStamp, hlE, longFuStamps] at hghost ⊢
          exact hghost
        · intro hfalse
          rw [hlE] at hfalse
          cases hfalse
      · by_cases h3 : s.warnThreshold ≤ t - cur.startedAt ∧ s.warnEmitted = false
        · -- WARN_THRESHOLD branch
          have hu : s.update t (some cid) =
              ({ s with currentSession := some { cur with lastActivityAt := t },
                        warnEmitted := true },
               [{ eventType := .warnThreshold, contextId := cid,
                  durationSeconds := t - cur.startedAt, timestamp := t }],
               some { cur with lastActivityAt := t }) := by
            simp [SessionTracker.update, h, hc, h1, h2, h3]
          obtain ⟨hcur2, hfi, hw, hl, hcc, hchain, hghost, hfu⟩ :=
            ih { s with currentSession := some { cur with lastActivityAt := t },
                        warnEmitted := true }
               { cur with lastActivityAt := t } rfl hc
          refine ⟨?_, ?_, ?_, ?_, ?_, ?_, ?_, ?_⟩ <;>
            simp only [List.map_cons, runTrace, hu, List.singleton_append]
          · exact hcur2
          · exact hfi
          · simp [countWarn, List.countP_cons, h3.2] at hw ⊢
            omega
          · simpa [countLong, List.countP_cons] using hl
          · simpa [countCC, List.countP_cons] using hcc
          · simpa [ghostStamp, longFuStamps, sepChain] using hchain
          · simpa [ghostStamp, longFuStamps] using hghost
          · intro hle
            simp [fuBeforeLong, countFu, List.takeWhile_cons] at hfu ⊢
            simpa using hfu hle
        · -- no event
          have hu : s.update t (some cid) =
              ({ s with currentSession := some { cur with lastActivityAt := t } },
               [], some { cur with lastActivityAt := t }) := by
            simp [SessionTracker.update, h, hc, h1, h2, h3]
          obtain ⟨hcur2, hfi, hw, hl, hcc, hchain, hghost, hfu⟩ :=
            ih { s with currentSession := some { cur with lastActivityAt := t } }
               { cur with lastActivityAt := t } rfl hc
          refine ⟨?_, ?_, ?_, ?_, ?_, ?_, ?_, ?_⟩ <;>
            simp only [List.map_cons, runTrace, hu, List.nil_append]
          · exact hcur2
          · exact hfi
          · exact hw
          · exact hl
          · exact hcc
          · exact hchain
          · exact hghost
          · exact hfu


/-- State of the tracker right after the first `update` of a fresh tracker
with context `c` at time `t`: a session on `c` opened at `t`, clean flags. -/
def startState (warn long interval : ℚ) (c : String) (t : ℚ) : SessionTracker :=
  { warnThreshold := warn, longThreshold := long, followUpInterval := interval,
    currentSession := some ⟨c, t, t⟩, warnEmitted := false, longEmitted := false,
    lastFollowUpAt := 0 }

lemma countP_le_one_of_eq_toNat {l : List SessionEvent} {p : SessionEvent → Bool}
    {b : Bool} (h : l.countP p = b.toNat) : l.countP p ≤ 1 := by
  rw [h]; cases b <;> simp

lemma update_init (warn long interval : ℚ) (c : String) (t : ℚ) :
    (SessionTracker.init warn long interval).update t (some c) =
      (startState warn long interval c t,
       [{ eventType := .contextChanged, contextId := c,
          durationSeconds := 0, timestamp := t }],
       some ⟨c, t, t⟩) := rfl

lemma run_init_countWarn_le_one (warn long interval : ℚ) (c : String) (ts : List ℚ) :
    countWarn (runTrace (SessionTracker.init warn long interval)
      (ts.map fun t => (t, some c))).2 ≤ 1 := by
  cases ts with
  | nil => simp [runTrace, countWarn]
  | cons t rest =>
    obtain ⟨-, -, hw, -, -, -, -, -⟩ :=
      runTrace_fixedCtx c rest (startState warn long interval c t) ⟨c, t, t⟩ rfl rfl
    simp only [startState, Bool.toNat_false, Nat.add_zero] at hw
    simp only [List.map_cons, runTrace, update_init, List.singleton_append]
    simp only [countWarn] at hw ⊢
    simpa [List.countP_cons] using countP_le_one_of_eq_toNat hw

lemma run_init_countLong_le_one (warn long interval : ℚ) (c : String) (ts : List ℚ) :
    countLong (runTrace (SessionTracker.init warn long interval)
      (ts.map fun t => (t, some c))).2 ≤ 1 := by
  cases ts with
  | nil => simp [runTrace, countLong]
  | cons t rest =>
    obtain ⟨-, -, -, hl, -, -, -, -⟩ :=
      runTrace_fixedCtx c rest (startState warn long interval c t) ⟨c, t, t⟩ rfl rfl
    simp only [startState, Bool.toNat_false, Nat.add_zero] at hl
    simp only [List.map_cons, runTrace, update_init, List.singleton_append]
    simp only [countLong] at hl ⊢
    simpa [List.countP_cons] using countP_le_one_of_eq_toNat hl

lemma run_init_sepChain (warn long interval : ℚ) (c : String) (ts : List ℚ) :
    sepChain interval (longFuStamps (runTrace (SessionTracker.init warn long interval)
      (ts.map fun t => (t, some c))).2) := by
  cases ts with
  | nil => simp [runTrace, longFuStamps, sepChain]
  | cons t rest =>
    obtain ⟨-, -, -, -, -, hchain, -, -⟩ :=
      runTrace_fixedCtx c rest (startState warn long interval c t) ⟨c, t, t⟩ rfl rfl
    simp only [List.map_cons, runTrace, update_init, List.singleton_append]
    simpa [sepChain, ghostStamp, longFuStamps, startState] using hchain

/-- C1: For every sequence of `SessionTracker.update()` calls with contexts
sharing one fixed context_id and strictly increasing time, the
`WARN_THRESHOLD` event and the `LONG_THRESHOLD` event are each emitted at
most once, and any two consecutive `FOLLOW_UP` emissions (and the first
`FOLLOW_UP` after `LONG_THRESHOLD`) are separated by at least
`follow_up_interval_sec`. -/
theorem sessionTracker_thresholds_once_followUp_spaced
    (warn long interval : ℚ) (c : String) (ts : List ℚ)
    (hmono : ts.Chain' (· < ·)) :
    countWarn (runTrace (SessionTracker.init warn long interval)
        (ts.map fun t => (t, some c))).2 ≤ 1 ∧
    countLong (runTrace (SessionTracker.init warn long interval)
        (ts.map fun t => (t, some c))).2 ≤ 1 ∧
    sepChain interval (longFuStamps (runTrace (SessionTracker.init warn long interval)
        (ts.map fun t => (t, some c))).2) := by
  clear hmono
  exact ⟨run_init_countWarn_le_one warn long interval c ts,
    run_init_countLong_le_one warn long interval c ts,
    run_init_sepChain warn long interval c ts⟩

/-- Witness for `sessionTracker_thresholds_once_followUp_spaced` at warn=300,
long=600, interval=90 and update times 0, 650, 700. -/
theorem sessionTracker_thresholds_once_followUp_spaced_witness :
    countWarn (runTrace (SessionTracker.init 300 600 90)
        ([(0:ℚ), 650, 700].map fun t => (t, some "ctx"))).2 ≤ 1 ∧
    countLong (runTrace (SessionTracker.init 300 600 90)
        ([(0:ℚ), 650, 700].map fun t => (t, some "ctx"))).2 ≤ 1 ∧
    sepChain 90 (longFuStamps (runTrace (SessionTracker.init 300 600 90)
        ([(0:ℚ), 650, 700].map fun t => (t, some "ctx"))).2) :=
  sessionTracker_thresholds_once_followUp_spaced 300 600 90 "ctx" [0, 650, 700]
    (by norm_num)

/-- C2 counterexample: with warn=300, long=600, follow-up interval 90 and
same-context updates at times 0, 650, 700, the run emits
`CONTEXT_CHANGED`, then `LONG_THRESHOLD`, then `WARN_THRESHOLD`: a
`WARN_THRESHOLD` event is emitted after `LONG_THRESHOLD` (the warn
threshold was skipped over before the long threshold fired), refuting the
claimed event ordering. -/
theorem sessionTracker_warn_after_long_counterexample :
    ((runTrace (SessionTracker.init 300 600 90)
        [((0:ℚ), some "ctx"), (650, some "ctx"), (700, some "ctx")]).2.map
        (·.eventType) =
      [.contextChanged, .longThreshold, .warnThreshold]) ∧
    warnAfterLong (runTrace (SessionTracker.init 300 600 90)
        [((0:ℚ), some "ctx"), (650, some "ctx"), (700, some "ctx")]).2 = true := by
  refine ⟨?_, ?_⟩ <;>
    norm_num [runTrace, SessionTracker.update, SessionTracker.init,
      SessionTracker.newSession, warnAfterLong, List.dropWhile_cons]
  decide

lemma warnAfterLong_eq_false_of_countWarn_le_one {evs : List SessionEvent}
    (hle : countWarn evs ≤ 1) (hwb : warnBeforeLong evs = true) :
    warnAfterLong evs = false := by
  have hsum : countWarn (evs.takeWhile fun e => decide (e.eventType ≠ .longThreshold)) +
      countWarn (evs.dropWhile fun e => decide (e.eventType ≠ .longThreshold)) =
      countWarn evs := by
    rw [countWarn, countWarn, countWarn, ← List.countP_append,
      List.takeWhile_append_dropWhile]
  have hpos : 0 < countWarn (evs.takeWhile fun e =>
      decide (e.eventType ≠ .longThreshold)) := by
    simp only [warnBeforeLong, List.any_eq_true] at hwb
    obtain ⟨e, he, hew⟩ := hwb
    exact List.countP_pos_iff.mpr ⟨e, he, hew⟩
  have hz : countWarn (evs.dropWhile fun e =>
      decide (e.eventType ≠ .longThreshold)) = 0 := by omega
  simp only [countWarn, List.countP_eq_zero] at hz
  simp only [warnAfterLong, List.any_eq_false]
  intro e he
  exact hz e he

/-- C2 amended: for every same-context run from a fresh tracker with strictly
increasing times, the first event (if any) is a `CONTEXT_CHANGED` and no
later event is a `CONTEXT_CHANGED`; `FOLLOW_UP` is never emitted before
`LONG_THRESHOLD` has been emitted; `WARN_THRESHOLD` is emitted at most
once, so it can follow `LONG_THRESHOLD` only when it was not already
emitted before it (that is, only when the warn threshold had been skipped
when `LONG_THRESHOLD` fired — which the code does allow, contrary to the
original claim). -/
theorem sessionTracker_event_order
    (warn long interval : ℚ) (c : String) (ts : List ℚ)
    (hmono : ts.Chain' (· < ·)) :
    (∀ e ∈ (runTrace (SessionTracker.init warn long interval)
        (ts.map fun t => (t, some c))).2.head?.toList,
        e.eventType = .contextChanged) ∧
    (∀ e ∈ (runTrace (SessionTracker.init warn long interval)
        (ts.map fun t => (t, some c))).2.tail,
        e.eventType ≠ .contextChanged) ∧
    fuBeforeLong (runTrace (SessionTracker.init warn long interval)
        (ts.map fun t => (t, some c))).2 = 0 ∧
    countWarn (runTrace (SessionTracker.init warn long interval)
        (ts.map fun t => (t, some c))).2 ≤ 1 ∧
    (warnBeforeLong (runTrace (SessionTracker.init warn long interval)
        (ts.map fun t => (t, some c))).2 = true →
      warnAfterLong (runTrace (SessionTracker.init warn long interval)
        (ts.map fun t => (t, some c))).2 = false) := by
  have hwle := run_init_countWarn_le_one warn long interval c ts
  clear hmono
  refine ⟨?_, ?_, ?_, hwle, fun hwb => warnAfterLong_eq_false_of_countWarn_le_one hwle hwb⟩
  · cases ts with
    | nil => simp [runTrace]
    | cons t rest =>
      simp [List.map_cons, runTrace, update_init]
  · cases ts with
    | nil => simp [runTrace]
    | cons t rest =>
      obtain ⟨-, -, -, -, hcc, -, -, -⟩ :=
        runTrace_fixedCtx c rest (startState warn long interval c t) ⟨c, t, t⟩ rfl rfl
      simp only [countCC, List.countP_eq_zero] at hcc
      intro e he
      simp only [List.map_cons, runTrace, update_init, List.singleton_append,
        List.tail_cons] at he
      simpa using hcc e he
  · cases ts with
    | nil => simp [runTrace, fuBeforeLong, countFu]
    | cons t rest =>
      obtain ⟨-, -, -, -, -, -, -, hfu⟩ :=
        runTrace_fixedCtx c rest (startState warn long interval c t) ⟨c, t, t⟩ rfl rfl
      have hz := hfu rfl
      simp only [List.map_cons, runTrace, update_init, List.singleton_append]
      simp only [fuBeforeLong, List.takeWhile_cons] at hz ⊢
      simpa [countFu, List.countP_cons] using hz

/-- Witness for `sessionTracker_event_order` at warn=300, long=600,
interval=90 and update times 0, 650, 700. -/
theorem sessionTracker_event_order_witness :
    (∀ e ∈ (runTrace (SessionTracker.init 300 600 90)
        ([(0:ℚ), 650, 700].map fun t => (t, some "ctx"))).2.head?.toList,
        e.eventType = .contextChanged) ∧
    (∀ e ∈ (runTrace (SessionTracker.init 300 600 90)
        ([(0:ℚ), 650, 700].map fun t => (t, some "ctx"))).2.tail,
        e.eventType ≠ .contextChanged) ∧
    fuBeforeLong (runTrace (SessionTracker.init 300 600 90)
        ([(0:ℚ), 650, 700].map fun t => (t, some "ctx"))).2 = 0 ∧
    countWarn (runTrace (SessionTracker.init 300 600 90)
        ([(0:ℚ), 650, 700].map fun t => (t, some "ctx"))).2 ≤ 1 ∧
    (warnBeforeLong (runTrace (SessionTracker.init 300 600 90)
        ([(0:ℚ), 650, 700].map fun t => (t, some "ctx"))).2 = true →
      warnAfterLong (runTrace (SessionTracker.init 300 600 90)
        ([(0:ℚ), 650, 700].map fun t => (t, some "ctx"))).2 = false) :=
  sessionTracker_event_order 300 600 90 "ctx" [0, 650, 700] (by norm_num)

/-- C3: whenever `update` is called with a context whose id differs from the
current session's (or no session exists), the tracker opens a new
`ActiveSession` with `started_at = now`, resets the fired flags and the
follow-up timestamp (so `WARN_THRESHOLD` and `LONG_THRESHOLD` can fire
again on the new context), and emits exactly one `CONTEXT_CHANGED` event
with `duration_seconds = 0`. -/
theorem sessionTracker_context_change_resets
    (s : SessionTracker) (now : ℚ) (cid : String)
    (h : ∀ cur, s.currentSession = some cur → cur.contextId ≠ cid) :
    s.update now (some cid) =
      ({ s with
          currentSession := some ⟨cid, now, now⟩
          warnEmitted := false
          longEmitted := false
          lastFollowUpAt := 0 },
       [{ eventType := .contextChanged, contextId := cid,
          durationSeconds := 0, timestamp := now }],
       some ⟨cid, now, now⟩) := by
  cases hcs : s.currentSession with
  | none => simp [SessionTracker.update, hcs, SessionTracker.newSession]
  | some cur =>
    have hne := h cur hcs
    simp [SessionTracker.update, hcs, SessionTracker.newSession, hne]

/-- Witness for `sessionTracker_context_change_resets` on a tracker whose
session is on a different context id. -/
theorem sessionTracker_context_change_resets_witness :
    (SessionTracker.update
      { warnThreshold := 300
        longThreshold := 600
        followUpInterval := 90
        currentSession := some ⟨"old", 0, 5⟩
        warnEmitted := true
        longEmitted := true
        lastFollowUpAt := 4 }
      7 (some "new")) =
      ({ warnThreshold := 300
         longThreshold := 600
         followUpInterval := 90
         currentSession := some ⟨"new", 7, 7⟩
         warnEmitted := false
         longEmitted := false
         lastFollowUpAt := 0 },
       [{ eventType := .contextChanged, contextId := "new",
          durationSeconds := 0, timestamp := 7 }],
       some ⟨"new", 7, 7⟩) :=
  sessionTracker_context_change_resets
    { warnThreshold := 300
      longThreshold := 600
      followUpInterval := 90
      currentSession := some ⟨"old", 0, 5⟩
      warnEmitted := true
      longEmitted := true
      lastFollowUpAt := 4 }
    7 "new" (by intro cur hcur; injection hcur with h2; rw [← h2]; decide)

/-- C4: calling `update(None)` returns the existing current session (or
`none` if there is none), changes no tracker state (the session's
`started_at` and `last_activity_at`, the fired flags and the follow-up
timestamp are all unchanged) and emits no event. -/
theorem sessionTracker_null_update_noop (s : SessionTracker) (now : ℚ) :
    s.update now none = (s, [], s.currentSession) := rfl

/-- Inferred mental state, from `MentalState` in `src/eeg/integration.py`. -/
inductive MentalState where
  | focused
  | stuck
  | distracted
  | unknown
  deriving DecidableEq, Repr

/-- A raw value stored under a key of a metrics dict: a number, a float NaN,
or a non-numeric value. -/
inductive RawVal where
  | num (q : ℚ)
  | nan
  | nonNumeric
  deriving DecidableEq, Repr

/-- The five metric fields read by `_metrics_to_state`; `none` means the key
is missing from the dict (`metrics.get(key)` returns `None`). -/
structure Metrics where
  eng : Option RawVal
  attention : Option RawVal
  str : Option RawVal
  rel : Option RawVal
  cognitiveStress : Option RawVal
  deriving DecidableEq, Repr

/-- The inner helper `v` of `_metrics_to_state`: missing keys, NaN and
non-numeric values all read as absent (`None`). -/
def v : Option RawVal → Option ℚ
  | some (.num q) => some q
  | _ => none

/-- Python `x is None or x < c` on an optional numeric value. -/
def isNoneOrLt (o : Option ℚ) (c : ℚ) : Bool :=
  match o with
  | none => true
  | some x => decide (x < c)

/-- Python `x is None or x >= c` on an optional numeric value. -/
def isNoneOrGe (o : Option ℚ) (c : ℚ) : Bool :=
  match o with
  | none => true
  | some x => decide (c ≤ x)

/-- Python `x is not None and x > c` on an optional numeric value. -/
def isSomeGt (o : Option ℚ) (c : ℚ) : Bool :=
  match o with
  | none => false
  | some x => decide (c < x)

/-- Embedding of `_metrics_to_state` (integration.py lines 24–72). -/
def metricsToState (m : Metrics) : MentalState :=
  let eng := v m.eng
  let attention := v m.attention
  let strVal := v m.str
  let rel := v m.rel
  let stress := v m.cognitiveStress
  match attention, stress with
  | some a, some st =>
    if 1/2 < a ∧ st < 1/2 then .focused
    else if 2/5 < a ∧ 1/2 < st then .stuck
    else if a < 2/5 then .distracted
    else .unknown
  | _, _ =>
    if eng = none ∧ attention = none then .unknown
    else
      match (match attention with | some a => some a | none => eng) with
      | none => .unknown
      | some att =>
        if decide (1/2 < att) && isNoneOrLt strVal (1/2) && isNoneOrGe rel (3/10) then
          .focused
        else if isSomeGt strVal (1/2) && decide (3/10 < att) then
          .stuck
        else if decide (att < 7/20) then
          .distracted
        else
          .unknown

/-- Per-sample decision table exactly as the specification words it: prefer
the two-field schema (`attention`, `cognitiveStress`) when both are
present (NaN and non-numeric count as absent), otherwise fall back to the
schema with `attention`/`eng` as attention proxy, `str` as stress and
`rel` as relaxation. -/
def specMetricsToState (m : Metrics) : MentalState :=
  if (v m.attention).isSome ∧ (v m.cognitiveStress).isSome then
    match v m.attention, v m.cognitiveStress with
    | some a, some st =>
      if 1/2 < a ∧ st < 1/2 then .focused
      else if 2/5 < a ∧ 1/2 < st then .stuck
      else if a < 2/5 then .distracted
      else .unknown
    | _, _ => .unknown
  else
    match (if (v m.attention).isSome then v m.attention else v m.eng) with
    | none => .unknown
    | some ap =>
      if 1/2 < ap ∧ isNoneOrLt (v m.str) (1/2) = true ∧ isNoneOrGe (v m.rel) (3/10) = true then
        .focused
      else if isSomeGt (v m.str) (1/2) = true ∧ 3/10 < ap then
        .stuck
      else if ap < 7/20 then
        .distracted
      else
        .unknown

/-- C5: per-sample classification implements the two-schema decision table of
the specification, with NaN and non-numeric values counting as absent. -/
theorem metricsToState_eq_spec (m : Metrics) :
    metricsToState m = specMetricsToState m := by
  unfold metricsToState specMetricsToState
  rcases hA : v m.attention with - | a <;>
    rcases hS : v m.cognitiveStress with - | st <;>
      rcases hE : v m.eng with - | e <;>
        simp [hA, hS, hE, Bool.and_assoc] <;>
          split_ifs <;> simp_all <;> omega

/-- The classification loop of `EEGBridge.handle_session_event`
(integration.py lines 119–126), already applied to the reversed buffer:
take the first sample whose per-sample classification is not `unknown`. -/
def classifyLoop : List Metrics → MentalState
  | [] => .unknown
  | mtr :: rest =>
    let st := metricsToState mtr
    if st ≠ .unknown then st else classifyLoop rest

/-- Buffer-based classification: the buffer is chronological (oldest first,
`store_metrics` appends), and the loop iterates `reversed(buffer)`. -/
def classifyBuffer (buf : List Metrics) : MentalState :=
  classifyLoop buf.reverse

/-- Buffer classification exactly as the specification words it: scan from
most recent to oldest and return the per-sample result of the first sample
that classifies to a non-`unknown` label; `unknown` when none does. -/
def specClassify (buf : List Metrics) : MentalState :=
  ((buf.reverse.map metricsToState).find? fun st => decide (st ≠ .unknown)).getD .unknown

lemma classifyLoop_eq_find (l : List Metrics) :
    classifyLoop l = ((l.map metricsToState).find? fun st => decide (st ≠ .unknown)).getD .unknown := by
  induction l with
  | nil => rfl
  | cons mtr rest ih =>
    by_cases hst : metricsToState mtr = .unknown
    · simpa [classifyLoop, List.find?, hst] using ih
    · simp [classifyLoop, List.find?, hst]

/-- C6: buffer-based classification scans the samples from most recent to
oldest and returns the per-sample result of the first sample that
classifies to a non-`unknown` label; if the buffer is empty or every
sample classifies as `unknown`, it returns `unknown`. -/
theorem classifyBuffer_most_recent_wins (buf : List Metrics) :
    classifyBuffer buf = specClassify buf ∧
    classifyBuffer ([] : List Metrics) = .unknown ∧
    ((∀ mtr ∈ buf, metricsToState mtr = .unknown) → classifyBuffer buf = .unknown) := by
  refine ⟨classifyLoop_eq_find buf.reverse, rfl, fun hall => ?_⟩
  rw [classifyBuffer, classifyLoop_eq_find]
  have hnone : (buf.reverse.map metricsToState).find?
      (fun st => decide (st ≠ .unknown)) = none := by
    rw [List.find?_eq_none]
    intro st hst
    simp only [List.mem_map, List.mem_reverse] at hst
    obtain ⟨mtr, hm, rfl⟩ := hst
    simp [hall mtr hm]
  rw [hnone]
  rfl

/-- Witness for `classifyBuffer_most_recent_wins` on a one-sample buffer whose
sample has no usable field. -/
theorem classifyBuffer_most_recent_wins_witness :
    classifyBuffer [(⟨none, none, none, none, none⟩ : Metrics)] =
        specClassify [(⟨none, none, none, none, none⟩ : Metrics)] ∧
    classifyBuffer ([] : List Metrics) = .unknown ∧
    classifyBuffer [(⟨none, none, none, none, none⟩ : Metrics)] = .unknown :=
  ⟨(classifyBuffer_most_recent_wins [⟨none, none, none, none, none⟩]).1,
   (classifyBuffer_most_recent_wins [⟨none, none, none, none, none⟩]).2.1,
   (classifyBuffer_most_recent_wins [⟨none, none, none, none, none⟩]).2.2
     (by intro mtr hm; simp at hm; rw [hm]; decide)⟩

/-- A metrics dict: association list from key to raw value. -/
def MetricsDict := List (String × RawVal)
  deriving DecidableEq

instance : Repr MetricsDict := inferInstanceAs (Repr (List (String × RawVal)))

/-- Dict lookup, `metrics.get(key)`. -/
def lookupKey (d : MetricsDict) (k : String) : Option RawVal :=
  (d.find? fun p => decide (p.1 = k)).map (·.2)

/-- The fields `_metrics_to_state` reads from a dict. -/
def dictToMetrics (d : MetricsDict) : Metrics :=
  { eng := lookupKey d "eng"
    attention := lookupKey d "attention"
    str := lookupKey d "str"
    rel := lookupKey d "rel"
    cognitiveStress := lookupKey d "cognitiveStress" }

/-- Python object heap for dicts: the address of a dict is its index; `alloc`
appends a fresh object, mutation overwrites in place.  `dict.copy()` is
`alloc` of the dereferenced contents. -/
structure Heap where
  dicts : List MetricsDict
  deriving Repr

/-- Read the dict stored at address `a`. -/
def Heap.deref (h : Heap) (a : ℕ) : MetricsDict :=
  h.dicts.getD a []

/-- Allocate a fresh dict object; its address is the previous heap size. -/
def Heap.alloc (h : Heap) (d : MetricsDict) : Heap × ℕ :=
  (⟨h.dicts ++ [d]⟩, h.dicts.length)

/-- In-place mutation of the dict object at address `a`. -/
def Heap.write (h : Heap) (a : ℕ) (d : MetricsDict) : Heap :=
  ⟨h.dicts.set a d⟩

/-- `_max_samples = 15` of `EEGBridge`. -/
def maxSamples : ℕ := 15

/-- Embedding of `EEGBridge.store_metrics` (integration.py lines 87–90):
append `(time, metrics.copy())` — a fresh copy of the caller's dict at
address `a` — then keep only the last `_max_samples` entries. -/
def storeMetrics (h : Heap) (buf : List (ℚ × ℕ)) (t : ℚ) (a : ℕ) :
    Heap × List (ℚ × ℕ) :=
  let copied := h.alloc (h.deref a)
  let buf2 := buf ++ [(t, copied.2)]
  (copied.1, buf2.drop (buf2.length - maxSamples))

/-- Embedding of `EEGBridge.get_last_metrics` (integration.py lines 96–101):
`None` on an empty buffer; otherwise a copy of the newest stored dict —
except that `m.copy() if m else None` yields `None` when that newest dict
is empty (an empty dict is falsy in Python). -/
def getLastMetrics (h : Heap) (buf : List (ℚ × ℕ)) : Heap × Option ℕ :=
  match buf.getLast? with
  | none => (h, none)
  | some p =>
    if h.deref p.2 = [] then (h, none)
    else
      let copied := h.alloc (h.deref p.2)
      (copied.1, some copied.2)

/-- The buffer as the list of dict contents its entries point to. -/
def bufferDicts (h : Heap) (buf : List (ℚ × ℕ)) : List MetricsDict :=
  buf.map fun p => h.deref p.2

lemma deref_write_ne (h : Heap) (a b : ℕ) (d : MetricsDict) (hne : b ≠ a) :
    (h.write a d).deref b = h.deref b := by
  simp only [Heap.write, Heap.deref, List.getD_eq_getElem?_getD]
  rw [List.getElem?_set_ne (by omega)]

lemma deref_alloc_lt (h : Heap) (d : MetricsDict) (b : ℕ) (hb : b < h.dicts.length) :
    (h.alloc d).1.deref b = h.deref b := by
  simp only [Heap.alloc, Heap.deref, List.getD_eq_getElem?_getD]
  rw [List.getElem?_append, if_pos hb]

/-- C10 amended: `store_metrics` inserts a fresh copy of the caller's dict
and `get_last_metrics` hands back a fresh copy of the newest stored dict,
so a buffer whose addresses avoid the caller's dict keeps doing so, and
mutating the caller's dict (or a returned copy) leaves the buffer contents
— and hence any later classification — unchanged; `get_last_metrics`
returns `none` exactly when the buffer is empty **or the newest stored
dict is empty** (Python's `m.copy() if m else None` treats the empty dict
as falsy, so the original "exactly when the buffer is empty" fails). -/
theorem metricBuffer_copies_and_last
    (h : Heap) (buf : List (ℚ × ℕ)) (t : ℚ) (a : ℕ)
    (hvalid : ∀ p ∈ buf, p.2 < h.dicts.length)
    (hpriv : ∀ p ∈ buf, p.2 ≠ a)
    (ha : a < h.dicts.length) :
    (∀ p ∈ (storeMetrics h buf t a).2, p.2 ≠ a) ∧
    (∀ d, bufferDicts ((storeMetrics h buf t a).1.write a d) (storeMetrics h buf t a).2 =
      bufferDicts (storeMetrics h buf t a).1 (storeMetrics h buf t a).2) ∧
    (∀ d, classifyBuffer ((bufferDicts ((storeMetrics h buf t a).1.write a d)
        (storeMetrics h buf t a).2).map dictToMetrics) =
      classifyBuffer ((bufferDicts (storeMetrics h buf t a).1
        (storeMetrics h buf t a).2).map dictToMetrics)) ∧
    ((getLastMetrics h buf).2 = none ↔
      buf = [] ∨ ∃ p, buf.getLast? = some p ∧ h.deref p.2 = []) ∧
    (∀ a2, (getLastMetrics h buf).2 = some a2 →
      (∀ p ∈ buf, p.2 ≠ a2) ∧
      ∀ d, bufferDicts ((getLastMetrics h buf).1.write a2 d) buf =
        bufferDicts (getLastMetrics h buf).1 buf) := by
  have hmem : ∀ p ∈ (storeMetrics h buf t a).2, p.2 ≠ a := by
    intro p hp
    simp only [storeMetrics, Heap.alloc] at hp
    rcases List.mem_append.mp (List.mem_of_mem_drop hp) with hin | hnew
    · exact hpriv p hin
    · simp only [List.mem_singleton] at hnew
      subst hnew
      omega
  have hstore : ∀ d, bufferDicts ((storeMetrics h buf t a).1.write a d)
      (storeMetrics h buf t a).2 =
      bufferDicts (storeMetrics h buf t a).1 (storeMetrics h buf t a).2 := by
    intro d
    refine List.map_congr_left fun p hp => ?_
    exact deref_write_ne _ a p.2 d (hmem p hp)
  refine ⟨hmem, hstore, fun d => by rw [hstore d], ?_, ?_⟩
  · cases hbl : buf.getLast? with
    | none =>
      have : buf = [] := List.getLast?_eq_none.mp hbl
      simp [getLastMetrics, hbl, this]
    | some p =>
      by_cases hd : h.deref p.2 = []
      · refine iff_of_true (by simp [getLastMetrics, hbl, hd]) (Or.inr ⟨p, rfl, hd⟩)
      · refine iff_of_false (by simp [getLastMetrics, hbl, hd, Heap.alloc]) ?_
        rintro (rfl | ⟨q, hq, hqd⟩)
        · simp at hbl
        · cases hq
          exact hd hqd
  · intro a2 ha2
    have ha2len : a2 = h.dicts.length := by
      rcases hbl : buf.getLast? with - | p
      · simp [getLastMetrics, hbl] at ha2
      · by_cases hd : h.deref p.2 = []
        · simp [getLastMetrics, hbl, hd] at ha2
        · simp [getLastMetrics, hbl, hd, Heap.alloc] at ha2
          omega
    have hne2 : ∀ p ∈ buf, p.2 ≠ a2 := by
      intro p hp
      have := hvalid p hp
      omega
    refine ⟨hne2, fun d => ?_⟩
    refine List.map_congr_left fun p hp => ?_
    exact deref_write_ne _ a2 p.2 d (hne2 p hp)

/-- C10 counterexample: store an **empty** dict; the buffer is then nonempty,
yet `get_last_metrics` returns `None` (`m.copy() if m else None` with `m`
the falsy empty dict), refuting "returns null exactly when the buffer is
empty". -/
theorem getLastMetrics_none_on_nonempty_buffer :
    ((getLastMetrics (storeMetrics ⟨[[]]⟩ [] 0 0).1 (storeMetrics ⟨[[]]⟩ [] 0 0).2).2 = none) ∧
    (storeMetrics ⟨[[]]⟩ [] 0 0).2 ≠ [] := by
  constructor <;>
    simp [storeMetrics, getLastMetrics, Heap.alloc, Heap.deref, maxSamples]

/-- Witness for `metricBuffer_copies_and_last` on a one-dict heap, an empty
buffer and the caller's dict at address 0. -/
theorem metricBuffer_copies_and_last_witness :
    (∀ p ∈ (storeMetrics ⟨[[]]⟩ [] 0 0).2, p.2 ≠ 0) ∧
    (∀ d, bufferDicts ((storeMetrics ⟨[[]]⟩ [] 0 0).1.write 0 d) (storeMetrics ⟨[[]]⟩ [] 0 0).2 =
      bufferDicts (storeMetrics ⟨[[]]⟩ [] 0 0).1 (storeMetrics ⟨[[]]⟩ [] 0 0).2) ∧
    (∀ d, classifyBuffer ((bufferDicts ((storeMetrics ⟨[[]]⟩ [] 0 0).1.write 0 d)
        (storeMetrics ⟨[[]]⟩ [] 0 0).2).map dictToMetrics) =
      classifyBuffer ((bufferDicts (storeMetrics ⟨[[]]⟩ [] 0 0).1
        (storeMetrics ⟨[[]]⟩ [] 0 0).2).map dictToMetrics)) ∧
    ((getLastMetrics ⟨[[]]⟩ ([] : List (ℚ × ℕ))).2 = none ↔
      ([] : List (ℚ × ℕ)) = [] ∨
        ∃ p, ([] : List (ℚ × ℕ)).getLast? = some p ∧ Heap.deref ⟨[[]]⟩ p.2 = []) ∧
    (∀ a2, (getLastMetrics ⟨[[]]⟩ ([] : List (ℚ × ℕ))).2 = some a2 →
      (∀ p ∈ ([] : List (ℚ × ℕ)), p.2 ≠ a2) ∧
      ∀ d, bufferDicts ((getLastMetrics ⟨[[]]⟩ ([] : List (ℚ × ℕ))).1.write a2 d) [] =
        bufferDicts (getLastMetrics ⟨[[]]⟩ ([] : List (ℚ × ℕ))).1 []) :=
  metricBuffer_copies_and_last ⟨[[]]⟩ [] 0 0 (by simp) (by simp) (by decide)

/-- Result of `assistant.decide(...)`: the fields the gate reads. -/
structure AssistantDecision where
  shouldHelp : Bool
  message : String
  deriving DecidableEq, Repr

/-- Outcome of the assistant invocation inside `FocusAssistant.decide`
(assistant.py lines 252–278): a successful parse returns the decision,
and every exception of the LLM call path (timeout, API error, unparsable
output) is caught and mapped to the default response
`should_help=False, message=""`.  The exception is carried as data so the
gate's behaviour is total over all outcomes. -/
def decideOutcome : Except String AssistantDecision → AssistantDecision
  | .ok d => d
  | .error _ => { shouldHelp := false, message := "" }

/-- Mutable state of the intervention gate in `run_processor`:
`last_feedback_at` (0 means "never fired") and `latest_feedback`. -/
structure GateState where
  lastFeedbackAt : ℚ
  latestFeedback : String
  deriving DecidableEq, Repr

/-- The `ms_hint` of `on_mental_state`: the state's string value when it is
stuck/distracted/focused, else "unknown". -/
def msHintOf : MentalState → String
  | .stuck => "stuck"
  | .distracted => "distracted"
  | .focused => "focused"
  | .unknown => "unknown"

/-- The fallback-message dict of `on_mental_state` (processor_main.py lines
185–191), with "Good job, keep going!" as the `.get` default. -/
def fallbackMessage (hint : String) : String :=
  if hint = "stuck" then
    "You appear stuck. Try a different section or take a short break."
  else if hint = "distracted" then
    "Your focus seems to have drifted. Try getting back to the content."
  else if hint = "focused" then
    "Good job, keep going!"
  else
    "Good job, keep going!"

/-- Embedding of the gate `on_mental_state` (processor_main.py lines
153–198): cooldown check, assistant invocation, empty-message fallback.
Returns the new gate state and whether the assistant was invoked.  Under
simulated time both `time.time()` reads of the call are `now`. -/
def onMentalState (cooldownSec : ℚ) (s : GateState) (now : ℚ) (state : MentalState)
    (isFollowUp : Bool) (llm : Except String AssistantDecision) : GateState × Bool :=
  if isFollowUp = false ∧ 0 < s.lastFeedbackAt ∧ now - s.lastFeedbackAt < cooldownSec then
    (s, false)
  else
    let decision := decideOutcome llm
    let msg0 := if decision.shouldHelp then decision.message.trim else ""
    let msg := if msg0 = "" then fallbackMessage (msHintOf state) else msg0
    ({ lastFeedbackAt := now, latestFeedback := msg }, true)

/-- C7: a non-follow-up actionable event arriving while a prior action exists
(`last_action_at ≠ 0`) and less than `cooldown_sec` has elapsed is
suppressed — no invocation, state unchanged; a FOLLOW_UP event always
produces an invocation; and from a fresh gate, two non-follow-up
actionable events less than `cooldown_sec` apart produce exactly one
invocation (the first invokes, the second is suppressed). -/
theorem interventionGate_cooldown
    (cooldown : ℚ) (s : GateState) (now : ℚ) (state : MentalState)
    (llm : Except String AssistantDecision) :
    (s.lastFeedbackAt ≠ 0 → 0 ≤ s.lastFeedbackAt → now - s.lastFeedbackAt < cooldown →
      onMentalState cooldown s now state false llm = (s, false)) ∧
    ((onMentalState cooldown s now state true llm).2 = true) ∧
    (∀ (fb : String) (t1 t2 : ℚ) (state2 : MentalState)
        (llm2 : Except String AssistantDecision),
      0 < t1 → t2 - t1 < cooldown →
      (onMentalState cooldown ⟨0, fb⟩ t1 state false llm).2 = true ∧
      (onMentalState cooldown
        (onMentalState cooldown ⟨0, fb⟩ t1 state false llm).1
        t2 state2 false llm2).2 = false) := by
  refine ⟨fun hne hnn hcd => ?_, ?_, fun fb t1 t2 state2 llm2 ht1 ht2 => ⟨?_, ?_⟩⟩
  · have hpos : 0 < s.lastFeedbackAt := lt_of_le_of_ne hnn (Ne.symm hne)
    rw [onMentalState, if_pos ⟨rfl, hpos, hcd⟩]
  · rw [onMentalState, if_neg (by simp)]
  · rw [onMentalState, if_neg (by simp)]
  · have hfirst : (onMentalState cooldown ⟨0, fb⟩ t1 state false llm).1.lastFeedbackAt = t1 := by
      rw [onMentalState, if_neg (by simp)]
    rw [onMentalState,
      if_pos ⟨rfl, by rw [hfirst]; exact ht1, by rw [hfirst]; exact ht2⟩]

/-- Witness for `interventionGate_cooldown`: cooldown 180, a prior action at
time 5, a new event at time 6, and for the two-event part times 10 and 20. -/
theorem interventionGate_cooldown_witness :
    (((5:ℚ) : ℚ) ≠ 0 → (0:ℚ) ≤ 5 → (6:ℚ) - 5 < 180 →
      onMentalState 180 ⟨5, "x"⟩ 6 .stuck false (.ok ⟨true, "hello"⟩) =
        (⟨5, "x"⟩, false)) ∧
    ((onMentalState 180 ⟨5, "x"⟩ 6 .stuck true (.ok ⟨true, "hello"⟩)).2 = true) ∧
    (∀ (fb : String) (t1 t2 : ℚ) (state2 : MentalState)
        (llm2 : Except String AssistantDecision),
      0 < t1 → t2 - t1 < 180 →
      (onMentalState 180 ⟨0, fb⟩ t1 .stuck false (.ok ⟨true, "hello"⟩)).2 = true ∧
      (onMentalState 180
        (onMentalState 180 ⟨0, fb⟩ t1 .stuck false (.ok ⟨true, "hello"⟩)).1
        t2 state2 false llm2).2 = false) :=
  interventionGate_cooldown 180 ⟨5, "x"⟩ 6 .stuck (.ok ⟨true, "hello"⟩)

lemma fallbackMessage_ne_empty (hint : String) : fallbackMessage hint ≠ "" := by
  rw [fallbackMessage]
  split_ifs <;> decide

/-- C8: the gate's handler is total over every assistant outcome — an
exception is caught (inside `decide`) and surfaces as the default
response, so whenever the event is not suppressed the gate sets
`latest_feedback` to a non-empty message; on an assistant failure
that message is exactly the deterministic fallback keyed by the
mental-state category. -/
theorem interventionGate_fallback
    (cooldown : ℚ) (s : GateState) (now : ℚ) (state : MentalState)
    (isFu : Bool) (llm : Except String AssistantDecision) :
    ((onMentalState cooldown s now state isFu llm).2 = true →
      (onMentalState cooldown s now state isFu llm).1.latestFeedback ≠ "") ∧
    (∀ e, (onMentalState cooldown s now state isFu (.error e)).2 = true →
      (onMentalState cooldown s now state isFu (.error e)).1.latestFeedback =
        fallbackMessage (msHintOf state)) := by
  have hsplit : ∀ llm2 : Except String AssistantDecision,
      (onMentalState cooldown s now state isFu llm2).2 = true →
      (onMentalState cooldown s now state isFu llm2).1.latestFeedback =
        (if (if (decideOutcome llm2).shouldHelp then (decideOutcome llm2).message.trim
              else "") = ""
          then fallbackMessage (msHintOf state)
          else (if (decideOutcome llm2).shouldHelp then (decideOutcome llm2).message.trim
              else "")) := by
    intro llm2 hinv
    by_cases h1 : isFu = false ∧ 0 < s.lastFeedbackAt ∧ now - s.lastFeedbackAt < cooldown
    · rw [onMentalState, if_pos h1] at hinv
      simp at hinv
    · rw [onMentalState, if_neg h1]
  constructor
  · intro hinv
    rw [hsplit llm hinv]
    split_ifs <;>
      first
        | exact fallbackMessage_ne_empty _
        | assumption
        | simp_all
  · intro e hinv
    rw [hsplit (.error e) hinv]
    simp [decideOutcome]

/-- Witness for `interventionGate_fallback`: a failed assistant call on a
non-suppressed (fresh-state) stuck event yields the stuck fallback. -/
theorem interventionGate_fallback_witness :
    (((onMentalState 180 ⟨0, ""⟩ 10 .stuck false (.error "timeout")).2 = true →
      (onMentalState 180 ⟨0, ""⟩ 10 .stuck false (.error "timeout")).1.latestFeedback ≠ "")) ∧
    (∀ e, (onMentalState 180 ⟨0, ""⟩ 10 .stuck false (.error e)).2 = true →
      (onMentalState 180 ⟨0, ""⟩ 10 .stuck false (.error e)).1.latestFeedback =
        fallbackMessage (msHintOf .stuck)) :=
  interventionGate_fallback 180 ⟨0, ""⟩ 10 .stuck false (.error "timeout")

/-- A normalized metrics dict (`mental_state_metrics`): keys to [0,1] scores. -/
def NormMetrics := List (String × ℚ)
  deriving DecidableEq

instance : Repr NormMetrics := inferInstanceAs (Repr (List (String × ℚ)))

/-- Dict lookup on a normalized metrics dict. -/
def lookupQ (d : NormMetrics) (k : String) : Option ℚ :=
  (d.find? fun p => decide (p.1 = k)).map (·.2)

/-- Embedding of the `ms_hint` computation of `handle_reading_help`
(processor_main.py lines 374–385): `ms_hint` starts as "unknown"; when
`mental_state_metrics` is truthy (not `None`, not the empty dict), read
`engagement` (default 0.5), `stress` (default 0.4), `focus` (default 0.5)
and run the `if`/`elif` chain — note there is **no** final `else`, so a
snapshot matching none of the three conditions keeps `ms_hint = "unknown"`. -/
def readingMsHint (metrics : Option NormMetrics) : String :=
  match metrics with
  | none => "unknown"
  | some m =>
    if m = [] then "unknown"
    else
      let eng := (lookupQ m "engagement").getD (1/2)
      let stress := (lookupQ m "stress").getD (2/5)
      let focus := (lookupQ m "focus").getD (1/2)
      if eng < 2/5 ∧ 1/2 < stress then "stuck"
      else if focus < 7/20 ∨ eng < 2/5 then "wandering"
      else if 1/2 ≤ eng ∧ stress < 1/2 then "focused"
      else "unknown"

/-- The derivation exactly as the claim words it: stuck when
`engagement<0.4 and stress>0.5`; otherwise the distracted/wandering label
when `focus<0.35`; otherwise focused. -/
def claimMsHint (m : NormMetrics) : String :=
  let eng := (lookupQ m "engagement").getD (1/2)
  let stress := (lookupQ m "stress").getD (2/5)
  let focus := (lookupQ m "focus").getD (1/2)
  if eng < 2/5 ∧ 1/2 < stress then "stuck"
  else if focus < 7/20 then "wandering"
  else "focused"

/-- C9 counterexample: the snapshot engagement=0.45, stress=0.4, focus=0.5
matches neither the stuck nor the distracted condition, so the claim
labels it focused — but the code's chain has no `else focused` (the
focused branch needs `eng>=0.5 and stress<0.5`), so `ms_hint` stays
"unknown". -/
theorem readingMsHint_unknown_counterexample :
    readingMsHint (some [("engagement", 9/20), ("stress", 2/5), ("focus", 1/2)]) = "unknown" ∧
    claimMsHint [("engagement", 9/20), ("stress", 2/5), ("focus", 1/2)] = "focused" ∧
    ("unknown" : String) ≠ "focused" := by
  have he : (lookupQ [("engagement", 9/20), ("stress", 2/5), ("focus", 1/2)]
      "engagement").getD (1/2) = 9/20 := rfl
  have hs : (lookupQ [("engagement", 9/20), ("stress", 2/5), ("focus", 1/2)]
      "stress").getD (2/5) = 2/5 := rfl
  have hf : (lookupQ [("engagement", 9/20), ("stress", 2/5), ("focus", 1/2)]
      "focus").getD (1/2) = 1/2 := rfl
  refine ⟨?_, ?_, by decide⟩ <;>
    · simp only [readingMsHint, claimMsHint]
      norm_num [he, hs, hf]

/-- C9 amended: the single-snapshot derivation yields stuck when
`engagement<0.4 and stress>0.5`; otherwise wandering when `focus<0.35`
**or `engagement<0.4`**; otherwise focused when `engagement>=0.5 and
stress<0.5`; otherwise it stays "unknown" (there is no catch-all focused
branch).  Missing fields default to engagement 0.5, stress 0.4, focus
0.5; a null or empty metrics dict yields "unknown". -/
theorem readingMsHint_cases (m : NormMetrics) (hne : m ≠ []) :
    (((lookupQ m "engagement").getD (1/2) < 2/5 ∧ 1/2 < (lookupQ m "stress").getD (2/5)) →
      readingMsHint (some m) = "stuck") ∧
    (¬((lookupQ m "engagement").getD (1/2) < 2/5 ∧ 1/2 < (lookupQ m "stress").getD (2/5)) →
      ((lookupQ m "focus").getD (1/2) < 7/20 ∨ (lookupQ m "engagement").getD (1/2) < 2/5) →
      readingMsHint (some m) = "wandering") ∧
    (¬((lookupQ m "engagement").getD (1/2) < 2/5 ∧ 1/2 < (lookupQ m "stress").getD (2/5)) →
      ¬((lookupQ m "focus").getD (1/2) < 7/20 ∨ (lookupQ m "engagement").getD (1/2) < 2/5) →
      (1/2 ≤ (lookupQ m "engagement").getD (1/2) ∧ (lookupQ m "stress").getD (2/5) < 1/2) →
      readingMsHint (some m) = "focused") ∧
    (¬((lookupQ m "engagement").getD (1/2) < 2/5 ∧ 1/2 < (lookupQ m "stress").getD (2/5)) →
      ¬((lookupQ m "focus").getD (1/2) < 7/20 ∨ (lookupQ m "engagement").getD (1/2) < 2/5) →
      ¬(1/2 ≤ (lookupQ m "engagement").getD (1/2) ∧ (lookupQ m "stress").getD (2/5) < 1/2) →
      readingMsHint (some m) = "unknown") ∧
    readingMsHint none = "unknown" := by
  refine ⟨fun h1 => ?_, fun h1 h2 => ?_, fun h1 h2 h3 => ?_, fun h1 h2 h3 => ?_, rfl⟩ <;>
    · simp only [readingMsHint]
      rw [if_neg hne]
      split_ifs <;> simp_all

/-- Witness for `readingMsHint_cases` at the snapshot engagement=0.45,
stress=0.4, focus=0.5: none of the three conditions holds, and the code
answers "unknown". -/
theorem readingMsHint_cases_witness :
    readingMsHint (some [("engagement", 9/20), ("stress", 2/5), ("focus", 1/2)]) = "unknown" :=
  (readingMsHint_cases [("engagement", 9/20), ("stress", 2/5), ("focus", 1/2)]
      (by simp)).2.2.2.1
    (by
      have he : (lookupQ [("engagement", 9/20), ("stress", 2/5), ("focus", 1/2)]
          "engagement").getD (1/2) = 9/20 := rfl
      have hs : (lookupQ [("engagement", 9/20), ("stress", 2/5), ("focus", 1/2)]
          "stress").getD (2/5) = 2/5 := rfl
      rw [he, hs]; norm_num)
    (by
      have he : (lookupQ [("engagement", 9/20), ("stress", 2/5), ("focus", 1/2)]
          "engagement").getD (1/2) = 9/20 := rfl
      have hf : (lookupQ [("engagement", 9/20), ("stress", 2/5), ("focus", 1/2)]
          "focus").getD (1/2) = 1/2 := rfl
      rw [he, hf]; norm_num)
    (by
      have he : (lookupQ [("engagement", 9/20), ("stress", 2/5), ("focus", 1/2)]
          "engagement").getD (1/2) = 9/20 := rfl
      have hs : (lookupQ [("engagement", 9/20), ("stress", 2/5), ("focus", 1/2)]
          "stress").getD (2/5) = 2/5 := rfl
      rw [he, hs]; norm_num)

end Jetson
